import Mathlib

/-!
Verification of the retrieval engine in src/services/retrival_engine.py.

The engine is a caching layer over an external vector index (Pinecone) and an
external embedding function.  The embedding below is a shallow model of the
engine: external collaborators are a structure of deterministic response
functions, the engine object is an explicit state record, and each Python
method becomes a state-passing Lean function.  Floating-point scores and
embedding vectors are modelled over the integers; no property proved here
computes with their values.
-/

/-- Scalar metadata / filter values: a string-keyed mapping of scalar values
(string, number, boolean), as the index metadata schema accepts. -/
inductive PyVal where
  | str (s : String)
  | int (n : Int)
  | bool (b : Bool)
deriving DecidableEq, Repr

/-- A Python dict with string keys, modelled as an insertion-ordered
association list whose keys are unique for genuine dict inputs. -/
abbrev Metadata := List (String × PyVal)

/-- Filter criteria passed to a query: same shape as metadata dicts. -/
abbrev FilterCriteria := List (String × PyVal)

/-- An embedding vector.  The source uses float vectors; their values are
never inspected by the engine, so integers stand in for the components. -/
abbrev EmbeddingVector := List Int

/-- One match returned by the index query: the engine reads the fields
id, score and metadata from it. -/
structure IndexMatch where
  id : String
  score : Int
  values : EmbeddingVector
  metadata : Metadata
deriving DecidableEq, Repr

/-- One formatted recommendation record, the dict with keys id, score and
metadata that get_retrivals builds from a match. -/
structure RetrievalRecord where
  id : String
  score : Int
  metadata : Metadata
deriving DecidableEq, Repr

/-- A vector handed to index.upsert: a dict with id, values and metadata. -/
structure PineconeVector where
  id : String
  values : EmbeddingVector
  metadata : Metadata
deriving DecidableEq, Repr

/-- A mutating call issued to the external index. -/
inductive IndexOp where
  | upsert (vectors : List PineconeVector)
  | delete (ids : List String)
deriving DecidableEq, Repr

/-- The external collaborators, as deterministic response functions: the
embedding function and the index nearest-neighbor query. -/
structure Env where
  embed : String → EmbeddingVector
  index_query : EmbeddingVector → Nat → Option FilterCriteria → List IndexMatch

/-- Python dict assignment d[k] = v on an association list: overwrite the
value in place if the key is present (keeping its position, as Python dicts
do), otherwise append the new pair at the end. -/
def dict_insert {α : Type} : List (String × α) → String → α → List (String × α)
  | [], k, v => [(k, v)]
  | (k2, v2) :: rest, k, v =>
      if k2 = k then (k, v) :: rest else (k2, v2) :: dict_insert rest k v

theorem lookup_dict_insert_self {α : Type} (l : List (String × α)) (k : String) (v : α) :
    List.lookup k (dict_insert l k v) = some v := by
  induction l with
  | nil => simp [dict_insert, List.lookup]
  | cons p rest ih =>
    obtain ⟨k2, v2⟩ := p
    by_cases h : k2 = k
    · simp [dict_insert, h, List.lookup]
    · have h2 : (k == k2) = false := beq_eq_false_iff_ne.mpr fun hk => h hk.symm
      simp [dict_insert, h, List.lookup, h2, ih]

theorem lookup_dict_insert_ne {α : Type} (l : List (String × α)) (k k2 : String) (v : α)
    (h : k2 ≠ k) : List.lookup k2 (dict_insert l k v) = List.lookup k2 l := by
  have hb : (k2 == k) = false := beq_eq_false_iff_ne.mpr h
  induction l with
  | nil => simp [dict_insert, List.lookup, hb]
  | cons p rest ih =>
    obtain ⟨k3, v3⟩ := p
    by_cases h3 : k3 = k
    · subst h3
      simp [dict_insert, List.lookup, hb]
    · simp [dict_insert, h3, List.lookup, ih]

/-- Stand-in for hashlib.md5 hexdigest applied to the UTF-8 encoding of the
key string (an external library call in the source): a deterministic digest
of the characters of the string, rendered in base 16.  Every claim about
fingerprints depends only on the digest being a pure function of the exact
key string, which holds of MD5 and of this stand-in alike. -/
def md5_hexdigest (s : String) : String :=
  let h := s.data.foldl (fun h c => (h * 65599 + c.toNat) % 2 ^ 128) 5381
  (Nat.toDigits 16 h).asString

/-- The single-quote character used by Python repr for strings. -/
def py_quote : String := (Char.ofNat 39).toString

/-- Python repr of a scalar value, as it appears inside str(sorted(...)).
Escaping of special characters inside strings is not modelled; the engine
only ever feeds the result to the digest. -/
def py_repr_val : PyVal → String
  | .str s => py_quote ++ s ++ py_quote
  | .int n => toString n
  | .bool b => if b then "True" else "False"

/-- Python repr of one (key, value) tuple from dict.items(). -/
def py_repr_item (p : String × PyVal) : String :=
  "(" ++ py_quote ++ p.1 ++ py_quote ++ ", " ++ py_repr_val p.2 ++ ")"

/-- Python str of a list of (key, value) tuples. -/
def py_str_items (l : List (String × PyVal)) : String :=
  "[" ++ String.intercalate ", " (l.map py_repr_item) ++ "]"

/-- Key order on dict items.  Python sorted compares the (key, value) tuples
lexicographically, but dict keys are unique, so the comparison never reaches
the values and the sort is a sort by key. -/
def item_le (p q : String × PyVal) : Prop := p.1 ≤ q.1

instance : DecidableRel item_le := fun p q => inferInstanceAs (Decidable (p.1 ≤ q.1))

instance : IsTotal (String × PyVal) item_le := ⟨fun p q => le_total p.1 q.1⟩

instance : IsTrans (String × PyVal) item_le := ⟨fun _ _ _ h1 h2 => le_trans h1 h2⟩

/-- Python sorted(filter_criteria.items()). -/
def sorted_items (fc : FilterCriteria) : FilterCriteria := List.insertionSort item_le fc

/-- The filter part of the key string: str(sorted(filter_criteria.items()))
if filter_criteria else "None".  Both None and the empty dict are falsy in
Python, so both produce the string "None". -/
def filter_criteria_str : Option FilterCriteria → String
  | none => "None"
  | some fc => if fc.isEmpty then "None" else py_str_items (sorted_items fc)

/-- RetrivalEngine._generate_retrieval_key: hash of the string
query | top_k | filter_str. -/
def generate_retrieval_key (query : String) (top_k : Nat)
    (filter_criteria : Option FilterCriteria) : String :=
  md5_hexdigest (query ++ "|" ++ toString top_k ++ "|" ++ filter_criteria_str filter_criteria)

example : generate_retrieval_key "q" 5 (some []) = generate_retrieval_key "q" 5 none := by decide

/-- Modelled from the spec: the class EmbeddingCache
(src/services/embedding_cache.py) is imported by the engine but its source
file is not part of the repository snapshot.  Per spec section 4.1 it is a
persistent content-hash-keyed store of embedding vectors; the hash of the
content bytes is collision-free in practice, so the map is keyed here by the
content itself.  embed_calls records every invocation of the external
embedding function. -/
structure EmbeddingCache where
  cache : List (String × EmbeddingVector)
  disk : List (String × EmbeddingVector)
  embed_calls : List String
deriving DecidableEq

/-- Modelled from the spec: EmbeddingCache.get_embedding, section 4.1 —
hash the content; if present in the durable map, return the stored vector;
otherwise invoke the external embedding function, store the result keyed by
the hash, persist the full map, and return the vector. -/
def EmbeddingCache.get_embedding (env : Env) (ec : EmbeddingCache) (content : String) :
    EmbeddingVector × EmbeddingCache :=
  match List.lookup content ec.cache with
  | some v => (v, ec)
  | none =>
    let v := env.embed content
    let cache2 := dict_insert ec.cache content v
    (v, { cache := cache2, disk := cache2, embed_calls := ec.embed_calls ++ [content] })

/-- The mutable state of a RetrivalEngine object, together with the
observable history of its interactions with the external index:
index_log collects the mutating calls issued (upsert, delete) and query_log
the nearest-neighbor queries, each with its arguments.  retrieval_disk is
the content of the durable retrieval-cache snapshot file. -/
structure EngineState where
  embedding_cache : EmbeddingCache
  retrieval_cache : List (String × List RetrievalRecord)
  retrieval_disk : List (String × List RetrievalRecord)
  index_log : List IndexOp
  query_log : List (EmbeddingVector × Nat × Option FilterCriteria)
  uuid_counter : Nat
deriving DecidableEq

/-- uuid.uuid4() draws a fresh random identifier, distinct from every other
draw; modelled as a fresh-id supply indexed by a counter held in the engine
state, so the n-th draw is the identifier uuid-n. -/
def uuid4 (n : Nat) : String := "uuid-" ++ toString n

/-- RetrivalEngine._save_retrieval_cache: attempt to pickle the in-memory
map to the snapshot file.  The try/except swallows any write failure (it is
only printed), so the method returns normally either way; save_ok says
whether the write reached the disk. -/
def save_retrieval_cache (save_ok : Bool) (s : EngineState) : EngineState :=
  if save_ok then { s with retrieval_disk := s.retrieval_cache } else s

/-- RetrivalEngine.add_item.  The first component of the result is the pair
of the returned item id and the metadata dict as the caller sees it after
the call: Python mutates the argument in place, so the updated mapping is
also the caller's. -/
def add_item (env : Env) (save_ok : Bool) (s : EngineState)
    (content : String) (metadata : Metadata) (item_type : String) :
    (String × Metadata) × EngineState :=
  let metadata2 := dict_insert metadata "content" (PyVal.str content)
  let metadata3 := dict_insert metadata2 "item_type" (PyVal.str item_type)
  let p := EmbeddingCache.get_embedding env s.embedding_cache content
  let item_id := uuid4 s.uuid_counter
  let s2 := { s with
    embedding_cache := p.2
    uuid_counter := s.uuid_counter + 1
    index_log := s.index_log ++ [IndexOp.upsert [⟨item_id, p.1, metadata3⟩]]
    retrieval_cache := [] }
  ((item_id, metadata3), save_retrieval_cache save_ok s2)

/-- The loop over contents in bulk_add_items collecting one embedding per
content through the EmbeddingCache. -/
def embeddings_loop (env : Env) (ec : EmbeddingCache) :
    List String → List EmbeddingVector × EmbeddingCache
  | [] => ([], ec)
  | content :: rest =>
    let p := EmbeddingCache.get_embedding env ec content
    let q := embeddings_loop env p.2 rest
    (p.1 :: q.1, q.2)

/-- The loop over enumerate(zip(contents, metadatas, embeddings)) in
bulk_add_items, building one Pinecone vector per item with id item_i and
mutating each metadata dict in place; the second component of each pair is
the metadata dict as the caller sees it after the call.  Like Python zip,
the loop stops at the shortest list. -/
def bulk_vectors : Nat → List String → List Metadata → List String →
    List EmbeddingVector → List (PineconeVector × Metadata)
  | i, content :: cs, metadata :: ms, item_type :: ts, embedding :: es =>
    let metadata2 := dict_insert (dict_insert metadata "content" (PyVal.str content))
      "item_type" (PyVal.str item_type)
    (⟨"item_" ++ toString i, embedding, metadata2⟩, metadata2) :: bulk_vectors (i + 1) cs ms ts es
  | _, _, _, _, _ => []

/-- The error raised by the engine on malformed caller input; models the
Python ValueError, which the spec error taxonomy names ValidationError. -/
inductive EngineError where
  | validationError (msg : String)
deriving DecidableEq

/-- RetrivalEngine.bulk_add_items.  On a length mismatch the ValueError is
raised before any side effect, so the state comes back unchanged; on
success the result carries the list of ids and the caller-visible metadata
dicts after their in-place mutation. -/
def bulk_add_items (env : Env) (save_ok : Bool) (s : EngineState)
    (contents : List String) (metadatas : List Metadata) (item_types : List String) :
    Except EngineError (List String × List Metadata) × EngineState :=
  if ¬ (contents.length = metadatas.length ∧ metadatas.length = item_types.length) then
    (Except.error (EngineError.validationError
      "Contents, metadatas, and item_types must have the same length"), s)
  else
    let pe := embeddings_loop env s.embedding_cache contents
    let pairs := bulk_vectors 0 contents metadatas item_types pe.1
    let vectors := pairs.map Prod.fst
    let s2 := { s with
      embedding_cache := pe.2
      index_log := s.index_log ++ [IndexOp.upsert vectors]
      retrieval_cache := [] }
    (Except.ok (vectors.map PineconeVector.id, pairs.map Prod.snd),
      save_retrieval_cache save_ok s2)

/-- The ids a successful bulk_add_items call returned. -/
def bulk_ids (r : Except EngineError (List String × List Metadata) × EngineState) :
    List String :=
  match r.1 with
  | .ok (ids, _) => ids
  | .error _ => []

/-- The caller-visible metadata dicts after a successful bulk_add_items. -/
def bulk_metadatas (r : Except EngineError (List String × List Metadata) × EngineState) :
    List Metadata :=
  match r.1 with
  | .ok (_, mds) => mds
  | .error _ => []

/-- The mapping of one index match to a recommendation record with keys
id, score and metadata, as get_retrivals formats it. -/
def format_match (m : IndexMatch) : RetrievalRecord := ⟨m.id, m.score, m.metadata⟩

/-- RetrivalEngine.get_retrivals: compute the cache key; on a hit return
the cached list as is; on a miss obtain the query embedding through the
EmbeddingCache, query the index with top_k and the optional filter, format
the matches, store the list under the key, persist, and return it. -/
def get_retrivals (env : Env) (save_ok : Bool) (s : EngineState)
    (query : String) (top_k : Nat) (filter_criteria : Option FilterCriteria) :
    List RetrievalRecord × EngineState :=
  let cache_key := generate_retrieval_key query top_k filter_criteria
  match List.lookup cache_key s.retrieval_cache with
  | some cached => (cached, s)
  | none =>
    let p := EmbeddingCache.get_embedding env s.embedding_cache query
    let found := env.index_query p.1 top_k filter_criteria
    let recommendations := found.map format_match
    let s2 := { s with
      embedding_cache := p.2
      query_log := s.query_log ++ [(p.1, top_k, filter_criteria)]
      retrieval_cache := dict_insert s.retrieval_cache cache_key recommendations }
    (recommendations, save_retrieval_cache save_ok s2)

/-- RetrivalEngine.delete_item: delete from the index, clear the retrieval
cache, persist. -/
def delete_item (save_ok : Bool) (s : EngineState) (item_id : String) : EngineState :=
  let s2 := { s with
    index_log := s.index_log ++ [IndexOp.delete [item_id]]
    retrieval_cache := [] }
  save_retrieval_cache save_ok s2

/-- RetrivalEngine.clear_retrieval_cache: manual invalidation entrypoint. -/
def clear_retrieval_cache (save_ok : Bool) (s : EngineState) : EngineState :=
  save_retrieval_cache save_ok { s with retrieval_cache := [] }

/-- Outcome of reading the retrieval-cache snapshot file at construction:
the file may be absent, may fail to unpickle, or may hold a cache map. -/
inductive SnapshotLoad where
  | missing
  | corrupt
  | ok (cache : List (String × List RetrievalRecord))

/-- RetrivalEngine._load_retrieval_cache: return the unpickled map when the
file exists and loads; return the empty map when the file is missing; catch
the exception and return the empty map when loading fails. -/
def load_retrieval_cache : SnapshotLoad → List (String × List RetrievalRecord)
  | .ok c => c
  | .missing => []
  | .corrupt => []

/-- RetrivalEngine.__init__, after the embedding cache and index handles are
obtained: the retrieval cache is loaded from the snapshot.  The function is
total: construction succeeds for every snapshot outcome. -/
def init_engine (ec : EmbeddingCache) (snap : SnapshotLoad) : EngineState :=
  { embedding_cache := ec
    retrieval_cache := load_retrieval_cache snap
    retrieval_disk := load_retrieval_cache snap
    index_log := []
    query_log := []
    uuid_counter := 0 }

theorem save_rc_embedding_cache (b : Bool) (s : EngineState) :
    (save_retrieval_cache b s).embedding_cache = s.embedding_cache := by
  cases b <;> rfl

theorem save_rc_retrieval_cache (b : Bool) (s : EngineState) :
    (save_retrieval_cache b s).retrieval_cache = s.retrieval_cache := by
  cases b <;> rfl

theorem save_rc_index_log (b : Bool) (s : EngineState) :
    (save_retrieval_cache b s).index_log = s.index_log := by
  cases b <;> rfl

theorem save_rc_query_log (b : Bool) (s : EngineState) :
    (save_retrieval_cache b s).query_log = s.query_log := by
  cases b <;> rfl

theorem save_rc_uuid_counter (b : Bool) (s : EngineState) :
    (save_retrieval_cache b s).uuid_counter = s.uuid_counter := by
  cases b <;> rfl

theorem save_rc_retrieval_disk (b : Bool) (s : EngineState) :
    (save_retrieval_cache b s).retrieval_disk =
      (if b then s.retrieval_cache else s.retrieval_disk) := by
  cases b <;> rfl

/-- Decimal value of a digit character produced by Nat.digitChar. -/
def digit_val (c : Char) : Nat := c.toNat - 48

/-- Positional base-10 value of a character list of decimal digits. -/
def digits_val : List Char → Nat
  | [] => 0
  | c :: cs => digit_val c * 10 ^ cs.length + digits_val cs

theorem digit_val_digitChar : ∀ d : Nat, d < 10 → digit_val (Nat.digitChar d) = d := by decide

theorem digits_val_toDigitsCore :
    ∀ (fuel n : Nat) (ds : List Char), n < fuel →
      digits_val (Nat.toDigitsCore 10 fuel n ds) = n * 10 ^ ds.length + digits_val ds := by
  intro fuel
  induction fuel with
  | zero => intro n ds h; exact absurd h (Nat.not_lt_zero n)
  | succ f ih =>
    intro n ds h
    by_cases h0 : n / 10 = 0
    · have hn : n < 10 := by omega
      have hmod : n % 10 = n := Nat.mod_eq_of_lt hn
      simp [Nat.toDigitsCore, h0, digits_val, hmod, digit_val_digitChar n hn]
    · have hpos : 0 < n := by
        rcases Nat.eq_zero_or_pos n with h1 | h1
        · exact absurd (by simp [h1]) h0
        · exact h1
      have hlt : n / 10 < f :=
        lt_of_lt_of_le (Nat.div_lt_self hpos (by norm_num)) (Nat.lt_succ_iff.mp h)
      have hstep : Nat.toDigitsCore 10 (f + 1) n ds =
          Nat.toDigitsCore 10 f (n / 10) (Nat.digitChar (n % 10) :: ds) := by
        simp [Nat.toDigitsCore, h0]
      rw [hstep, ih (n / 10) _ hlt]
      simp only [digits_val, List.length_cons,
        digit_val_digitChar (n % 10) (Nat.mod_lt n (by norm_num)), pow_succ]
      have hnm : 10 * (n / 10) + n % 10 = n := Nat.div_add_mod n 10
      calc n / 10 * (10 ^ ds.length * 10) + (n % 10 * 10 ^ ds.length + digits_val ds)
          = (10 * (n / 10) + n % 10) * 10 ^ ds.length + digits_val ds := by ring
        _ = n * 10 ^ ds.length + digits_val ds := by rw [hnm]

theorem digits_val_toDigits (n : Nat) : digits_val (Nat.toDigits 10 n) = n := by
  have h := digits_val_toDigitsCore (n + 1) n [] (Nat.lt_succ_self n)
  simpa [Nat.toDigits, digits_val] using h

theorem nat_repr_injective : Function.Injective Nat.repr := by
  intro a b h
  have hdata : Nat.toDigits 10 a = Nat.toDigits 10 b := congrArg String.data h
  calc a = digits_val (Nat.toDigits 10 a) := (digits_val_toDigits a).symm
    _ = digits_val (Nat.toDigits 10 b) := by rw [hdata]
    _ = b := digits_val_toDigits b

theorem uuid4_injective : Function.Injective uuid4 := by
  intro a b h
  apply nat_repr_injective
  have hdata := congrArg String.data h
  simp only [uuid4, String.data_append] at hdata
  exact congrArg List.asString (List.append_cancel_left hdata)

theorem embeddings_loop_length (env : Env) (ec : EmbeddingCache) (contents : List String) :
    (embeddings_loop env ec contents).1.length = contents.length := by
  induction contents generalizing ec with
  | nil => rfl
  | cons c cs ih => simp [embeddings_loop, ih]

theorem sorted_items_key_lt (l : FilterCriteria) (hl : (l.map Prod.fst).Nodup) :
    List.Sorted (fun p q : String × PyVal => p.1 < q.1) (sorted_items l) := by
  have hsorted : List.Sorted item_le (sorted_items l) := List.sorted_insertionSort item_le l
  have hperm : List.Perm ((sorted_items l).map Prod.fst) (l.map Prod.fst) :=
    (List.perm_insertionSort item_le l).map Prod.fst
  have hnd : ((sorted_items l).map Prod.fst).Nodup := hperm.nodup_iff.mpr hl
  have hne : List.Pairwise (fun p q : String × PyVal => p.1 ≠ q.1) (sorted_items l) :=
    List.pairwise_map.mp hnd
  exact (hsorted.and hne).imp fun h => lt_of_le_of_ne h.1 h.2

theorem sorted_items_eq_of_perm (fc1 fc2 : FilterCriteria)
    (hperm : fc1.Perm fc2) (hnd : (fc1.map Prod.fst).Nodup) :
    sorted_items fc1 = sorted_items fc2 := by
  haveI : IsAntisymm (String × PyVal) (fun p q => p.1 < q.1) :=
    ⟨fun a b h1 h2 => absurd (lt_trans h1 h2) (lt_irrefl _)⟩
  exact List.eq_of_perm_of_sorted
    ((List.perm_insertionSort item_le fc1).trans
      (hperm.trans (List.perm_insertionSort item_le fc2).symm))
    (sorted_items_key_lt fc1 hnd)
    (sorted_items_key_lt fc2 ((hperm.map Prod.fst).nodup_iff.mp hnd))

theorem bulk_vectors_ids (cs : List String) :
    ∀ (i : Nat) (ms : List Metadata) (ts : List String) (es : List EmbeddingVector),
      cs.length ≤ ms.length → cs.length ≤ ts.length → cs.length ≤ es.length →
      (bulk_vectors i cs ms ts es).map (fun p => p.1.id) =
        (List.range cs.length).map (fun j => "item_" ++ toString (i + j)) := by
  induction cs with
  | nil =>
    intro i ms ts es _ _ _
    cases ms <;> cases ts <;> cases es <;> simp [bulk_vectors]
  | cons c cs ih =>
    intro i ms ts es hm ht he
    cases ms with
    | nil => simp at hm
    | cons m ms =>
      cases ts with
      | nil => simp at ht
      | cons t ts =>
        cases es with
        | nil => simp at he
        | cons e es =>
          have harith : ∀ a : Nat, i + 1 + a = i + (a + 1) := fun a => by omega
          simp [bulk_vectors, List.range_succ_eq_map,
            ih (i + 1) ms ts es (by simpa using hm) (by simpa using ht) (by simpa using he),
            Function.comp, harith]

theorem bulk_vectors_metadata_getD (cs : List String) :
    ∀ (i j : Nat) (ms : List Metadata) (ts : List String) (es : List EmbeddingVector),
      j < cs.length → cs.length ≤ ms.length → cs.length ≤ ts.length → cs.length ≤ es.length →
      ((bulk_vectors i cs ms ts es).map Prod.snd).getD j [] =
        dict_insert (dict_insert (ms.getD j []) "content" (PyVal.str (cs.getD j "")))
          "item_type" (PyVal.str (ts.getD j "")) := by
  induction cs with
  | nil =>
    intro i j ms ts es hj _ _ _
    simp at hj
  | cons c cs ih =>
    intro i j ms ts es hj hm ht he
    cases ms with
    | nil => simp at hm
    | cons m ms =>
      cases ts with
      | nil => simp at ht
      | cons t ts =>
        cases es with
        | nil => simp at he
        | cons e es =>
          cases j with
          | zero => simp [bulk_vectors]
          | succ j =>
            simpa [bulk_vectors] using
              ih (i + 1) j ms ts es (by simpa using hj) (by simpa using hm)
                (by simpa using ht) (by simpa using he)

/-- A concrete environment for witness evaluations. -/
def env0 : Env :=
  { embed := fun _ => [1, 2]
    index_query := fun _ _ _ => [⟨"m1", 9, [1, 2], [("tag", PyVal.str "x")]⟩] }

/-- A concrete freshly constructed engine state for witness evaluations. -/
def s0 : EngineState := init_engine ⟨[], [], []⟩ SnapshotLoad.missing

/-- A concrete recommendation record for witness evaluations. -/
def rec0 : RetrievalRecord := ⟨"m1", 9, [("tag", PyVal.str "x")]⟩

/-- A concrete state whose retrieval cache holds one populated entry, for
witness evaluations. -/
def s1 : EngineState :=
  { s0 with retrieval_cache := [(generate_retrieval_key "q" 1 none, [rec0])] }

/-- C1: after any successful add_item, bulk_add_items, or delete_item call the
retrieval cache is empty, so every fingerprint key that was present in the
retrieval cache before the mutation is absent afterwards and no result cached
before the mutation can be served from the cache by a later get_retrivals. -/
theorem mutation_invalidates_retrieval_cache
    (env : Env) (save_ok : Bool) (s : EngineState)
    (content : String) (metadata : Metadata) (item_type : String)
    (contents : List String) (metadatas : List Metadata) (item_types : List String)
    (hlen : contents.length = metadatas.length ∧ metadatas.length = item_types.length)
    (item_id : String) (k : String) :
    ((add_item env save_ok s content metadata item_type).2.retrieval_cache = [] ∧
      List.lookup k (add_item env save_ok s content metadata item_type).2.retrieval_cache =
        none) ∧
    ((bulk_add_items env save_ok s contents metadatas item_types).2.retrieval_cache = [] ∧
      List.lookup k
          (bulk_add_items env save_ok s contents metadatas item_types).2.retrieval_cache =
        none) ∧
    ((delete_item save_ok s item_id).retrieval_cache = [] ∧
      List.lookup k (delete_item save_ok s item_id).retrieval_cache = none) := by
  refine ⟨⟨?_, ?_⟩, ⟨?_, ?_⟩, ?_, ?_⟩ <;>
    simp [add_item, bulk_add_items, delete_item, hlen.1, hlen.2,
      save_rc_retrieval_cache, List.lookup]

/-- Witness for C1: a state with one populated cache entry, mutated at concrete
inputs; the populated key is gone after each mutation. -/
theorem mutation_invalidates_retrieval_cache_witness :
    ((["a"].length = [([] : Metadata)].length ∧
        [([] : Metadata)].length = ["t"].length)) ∧
    (((add_item env0 true s1 "c" [] "t").2.retrieval_cache = [] ∧
      List.lookup (generate_retrieval_key "q" 1 none)
          (add_item env0 true s1 "c" [] "t").2.retrieval_cache = none) ∧
    ((bulk_add_items env0 true s1 ["a"] [[]] ["t"]).2.retrieval_cache = [] ∧
      List.lookup (generate_retrieval_key "q" 1 none)
          (bulk_add_items env0 true s1 ["a"] [[]] ["t"]).2.retrieval_cache = none) ∧
    ((delete_item true s1 "id0").retrieval_cache = [] ∧
      List.lookup (generate_retrieval_key "q" 1 none)
          (delete_item true s1 "id0").retrieval_cache = none)) :=
  ⟨⟨rfl, rfl⟩,
    mutation_invalidates_retrieval_cache env0 true s1 "c" [] "t" ["a"] [[]] ["t"]
      ⟨rfl, rfl⟩ "id0" (generate_retrieval_key "q" 1 none)⟩

/-- C2: for every query, top_k and pair of filter-criteria mappings holding the
same key-value pairs in different field order (same pairs, distinct keys), the
retrieval-cache fingerprints are identical; in particular the two-key example
with fields a and b swapped produces identical fingerprints for every query
and top_k. -/
theorem fingerprint_order_independent (q : String) (k : Nat)
    (fc1 fc2 : FilterCriteria) (hperm : fc1.Perm fc2)
    (hnd : (fc1.map Prod.fst).Nodup) :
    generate_retrieval_key q k (some fc1) = generate_retrieval_key q k (some fc2) ∧
    generate_retrieval_key q k (some [("a", PyVal.int 1), ("b", PyVal.int 2)]) =
      generate_retrieval_key q k (some [("b", PyVal.int 2), ("a", PyVal.int 1)]) := by
  constructor
  · have hs : sorted_items fc1 = sorted_items fc2 := sorted_items_eq_of_perm fc1 fc2 hperm hnd
    have he : fc1.isEmpty = fc2.isEmpty := by
      cases fc1 with
      | nil => simp [hperm.nil_eq.symm]
      | cons p l =>
        cases fc2 with
        | nil => exact absurd hperm.symm.nil_eq (by simp)
        | cons p2 l2 => simp
    simp [generate_retrieval_key, filter_criteria_str, hs, he]
  · have hs : sorted_items [("a", PyVal.int 1), ("b", PyVal.int 2)] =
        sorted_items [("b", PyVal.int 2), ("a", PyVal.int 1)] :=
      sorted_items_eq_of_perm _ _ (by decide) (by decide)
    simp [generate_retrieval_key, filter_criteria_str, hs]

/-- Witness for C2 at the spec's own example filters. -/
theorem fingerprint_order_independent_witness :
    (([("a", PyVal.int 1), ("b", PyVal.int 2)] : FilterCriteria).Perm
        [("b", PyVal.int 2), ("a", PyVal.int 1)] ∧
      (([("a", PyVal.int 1), ("b", PyVal.int 2)] : FilterCriteria).map Prod.fst).Nodup) ∧
    generate_retrieval_key "q" 5 (some [("a", PyVal.int 1), ("b", PyVal.int 2)]) =
      generate_retrieval_key "q" 5 (some [("b", PyVal.int 2), ("a", PyVal.int 1)]) :=
  ⟨⟨by decide, by decide⟩,
    (fingerprint_order_independent "q" 5
      [("a", PyVal.int 1), ("b", PyVal.int 2)] [("b", PyVal.int 2), ("a", PyVal.int 1)]
      (by decide) (by decide)).1⟩

/-- C3: bulk_add_items with input sequences of mismatched lengths fails with the
ValueError (ValidationError of the spec taxonomy) before any side effect: the
whole engine state comes back unchanged, so no embedding is computed or cached,
no upsert is issued, the retrieval cache is untouched and no snapshot is
persisted. -/
theorem bulk_length_mismatch_no_side_effect
    (env : Env) (save_ok : Bool) (s : EngineState)
    (contents : List String) (metadatas : List Metadata) (item_types : List String)
    (hlen : ¬ (contents.length = metadatas.length ∧
        metadatas.length = item_types.length)) :
    (bulk_add_items env save_ok s contents metadatas item_types).1 =
      Except.error (EngineError.validationError
        "Contents, metadatas, and item_types must have the same length") ∧
    (bulk_add_items env save_ok s contents metadatas item_types).2 = s ∧
    (bulk_add_items env save_ok s contents metadatas item_types).2.embedding_cache =
      s.embedding_cache ∧
    (bulk_add_items env save_ok s contents metadatas item_types).2.embedding_cache.embed_calls =
      s.embedding_cache.embed_calls ∧
    (bulk_add_items env save_ok s contents metadatas item_types).2.index_log = s.index_log ∧
    (bulk_add_items env save_ok s contents metadatas item_types).2.retrieval_cache =
      s.retrieval_cache ∧
    (bulk_add_items env save_ok s contents metadatas item_types).2.retrieval_disk =
      s.retrieval_disk := by
  refine ⟨?_, ?_, ?_, ?_, ?_, ?_, ?_⟩ <;> simp [bulk_add_items, hlen]

/-- Witness for C3 at the spec's example: 3 contents, 2 metadatas. -/
theorem bulk_length_mismatch_no_side_effect_witness :
    (¬ ((["a", "b", "c"] : List String).length =
          ([[], []] : List Metadata).length ∧
        ([[], []] : List Metadata).length = (["t", "t", "t"] : List String).length)) ∧
    ((bulk_add_items env0 true s1 ["a", "b", "c"] [[], []] ["t", "t", "t"]).1 =
      Except.error (EngineError.validationError
        "Contents, metadatas, and item_types must have the same length") ∧
    (bulk_add_items env0 true s1 ["a", "b", "c"] [[], []] ["t", "t", "t"]).2 = s1 ∧
    (bulk_add_items env0 true s1 ["a", "b", "c"] [[], []] ["t", "t", "t"]).2.embedding_cache =
      s1.embedding_cache ∧
    (bulk_add_items env0 true s1 ["a", "b", "c"]
        [[], []] ["t", "t", "t"]).2.embedding_cache.embed_calls =
      s1.embedding_cache.embed_calls ∧
    (bulk_add_items env0 true s1 ["a", "b", "c"] [[], []] ["t", "t", "t"]).2.index_log =
      s1.index_log ∧
    (bulk_add_items env0 true s1 ["a", "b", "c"] [[], []] ["t", "t", "t"]).2.retrieval_cache =
      s1.retrieval_cache ∧
    (bulk_add_items env0 true s1 ["a", "b", "c"] [[], []] ["t", "t", "t"]).2.retrieval_disk =
      s1.retrieval_disk) :=
  ⟨by decide,
    bulk_length_mismatch_no_side_effect env0 true s1 ["a", "b", "c"] [[], []]
      ["t", "t", "t"] (by decide)⟩

/-- C9: the fingerprint computed for an empty filter-criteria mapping equals the
fingerprint computed for no filter at all (the empty dict is falsy in Python,
like None), so both queries address one and the same retrieval-cache entry in
every engine state. -/
theorem empty_filter_key_eq_none_filter_key (q : String) (k : Nat) (s : EngineState) :
    generate_retrieval_key q k (some []) = generate_retrieval_key q k none ∧
    List.lookup (generate_retrieval_key q k (some [])) s.retrieval_cache =
      List.lookup (generate_retrieval_key q k none) s.retrieval_cache :=
  ⟨rfl, rfl⟩

/-- C4: on a cache hit get_retrivals returns the cached list verbatim with the
state untouched (so no index query and no embedding lookup happens); on a miss
it obtains the query embedding through the EmbeddingCache, queries the index
with top_k and the optional filter (recorded in the query log), returns the
matches formatted as id/score/metadata records, stores that list in the
retrieval cache under the fingerprint, and persists the cache. -/
theorem get_retrivals_spec (env : Env) (save_ok : Bool) (s : EngineState)
    (query : String) (top_k : Nat) (fc : Option FilterCriteria) :
    (∀ cached,
      List.lookup (generate_retrieval_key query top_k fc) s.retrieval_cache = some cached →
        get_retrivals env save_ok s query top_k fc = (cached, s)) ∧
    (List.lookup (generate_retrieval_key query top_k fc) s.retrieval_cache = none →
      ((get_retrivals env save_ok s query top_k fc).1 =
          (env.index_query (EmbeddingCache.get_embedding env s.embedding_cache query).1
            top_k fc).map format_match ∧
        (get_retrivals env save_ok s query top_k fc).2.embedding_cache =
          (EmbeddingCache.get_embedding env s.embedding_cache query).2 ∧
        (get_retrivals env save_ok s query top_k fc).2.query_log =
          s.query_log ++
            [((EmbeddingCache.get_embedding env s.embedding_cache query).1, top_k, fc)] ∧
        List.lookup (generate_retrieval_key query top_k fc)
            (get_retrivals env save_ok s query top_k fc).2.retrieval_cache =
          some ((get_retrivals env save_ok s query top_k fc).1) ∧
        (get_retrivals env save_ok s query top_k fc).2.retrieval_disk =
          (if save_ok then (get_retrivals env save_ok s query top_k fc).2.retrieval_cache
            else s.retrieval_disk))) := by
  constructor
  · intro cached h
    simp [get_retrivals, h]
  · intro h
    refine ⟨?_, ?_, ?_, ?_, ?_⟩ <;>
      simp [get_retrivals, h, save_rc_embedding_cache, save_rc_query_log,
        save_rc_retrieval_cache, save_rc_retrieval_disk, lookup_dict_insert_self]

/-- Witness for C4: a hit against a populated entry and a miss on a fresh
state, both at concrete inputs. -/
theorem get_retrivals_spec_witness :
    (List.lookup (generate_retrieval_key "q" 1 none) s1.retrieval_cache = some [rec0]) ∧
    get_retrivals env0 true s1 "q" 1 none = ([rec0], s1) ∧
    (List.lookup (generate_retrieval_key "q" 1 none) s0.retrieval_cache = none) ∧
    (get_retrivals env0 true s0 "q" 1 none).1 =
      (env0.index_query (EmbeddingCache.get_embedding env0 s0.embedding_cache "q").1
        1 none).map format_match :=
  ⟨by decide,
    (get_retrivals_spec env0 true s1 "q" 1 none).1 [rec0] (by decide),
    by decide,
    ((get_retrivals_spec env0 true s0 "q" 1 none).2 (by decide)).1⟩

/-- C5: a successful add_item merges content and item_type into the metadata,
obtains the embedding through the EmbeddingCache, draws a fresh id from the
uuid supply (distinct from every id the supply handed out before), upserts
exactly one vector with that id, embedding and metadata, clears the retrieval
cache, persists it, and returns the generated id. -/
theorem add_item_spec (env : Env) (save_ok : Bool) (s : EngineState)
    (content : String) (metadata : Metadata) (item_type : String) :
    (add_item env save_ok s content metadata item_type).1.2 =
      dict_insert (dict_insert metadata "content" (PyVal.str content))
        "item_type" (PyVal.str item_type) ∧
    List.lookup "content" (add_item env save_ok s content metadata item_type).1.2 =
      some (PyVal.str content) ∧
    List.lookup "item_type" (add_item env save_ok s content metadata item_type).1.2 =
      some (PyVal.str item_type) ∧
    (add_item env save_ok s content metadata item_type).2.embedding_cache =
      (EmbeddingCache.get_embedding env s.embedding_cache content).2 ∧
    (add_item env save_ok s content metadata item_type).1.1 = uuid4 s.uuid_counter ∧
    (add_item env save_ok s content metadata item_type).2.uuid_counter =
      s.uuid_counter + 1 ∧
    (∀ m : Nat, m < s.uuid_counter →
      (add_item env save_ok s content metadata item_type).1.1 ≠ uuid4 m) ∧
    (add_item env save_ok s content metadata item_type).2.index_log =
      s.index_log ++
        [IndexOp.upsert [⟨uuid4 s.uuid_counter,
          (EmbeddingCache.get_embedding env s.embedding_cache content).1,
          (add_item env save_ok s content metadata item_type).1.2⟩]] ∧
    (add_item env save_ok s content metadata item_type).2.retrieval_cache = [] ∧
    (add_item env save_ok s content metadata item_type).2.retrieval_disk =
      (if save_ok then [] else s.retrieval_disk) := by
  have hne : ("item_type" : String) ≠ "content" := by decide
  refine ⟨?_, ?_, ?_, ?_, ?_, ?_, ?_, ?_, ?_, ?_⟩
  · simp [add_item]
  · simp [add_item, lookup_dict_insert_ne _ _ _ _ (by decide : ("content" : String) ≠ "item_type"),
      lookup_dict_insert_self]
  · simp [add_item, lookup_dict_insert_self]
  · simp [add_item, save_rc_embedding_cache]
  · simp [add_item]
  · simp [add_item, save_rc_uuid_counter]
  · intro m hm heq
    have h2 : uuid4 s.uuid_counter = uuid4 m := by simpa [add_item] using heq
    have h3 : s.uuid_counter = m := uuid4_injective h2
    omega
  · simp [add_item, save_rc_index_log]
  · simp [add_item, save_rc_retrieval_cache]
  · simp [add_item, save_rc_retrieval_disk, save_rc_retrieval_cache]

/-- Witness for C5: with three ids already drawn, the id generated next is
distinct from an earlier draw. -/
theorem add_item_spec_witness :
    (0 : Nat) < (3 : Nat) ∧
    (add_item env0 true { s0 with uuid_counter := 3 } "c" [] "t").1.1 ≠ uuid4 0 :=
  ⟨by decide,
    (add_item_spec env0 true { s0 with uuid_counter := 3 } "c" [] "t").2.2.2.2.2.2.1 0
      (by decide)⟩

/-- C6: the ids a successful bulk_add_items returns are positional, item_0
through item_nminus1, determined only by the position in the batch, so a
second bulk_add_items call made right after the first returns an overlapping
id set: both contain item_0. -/
theorem bulk_ids_positional (env : Env) (save_ok : Bool) (s : EngineState)
    (cs1 : List String) (ms1 : List Metadata) (ts1 : List String)
    (cs2 : List String) (ms2 : List Metadata) (ts2 : List String)
    (h1 : cs1.length = ms1.length ∧ ms1.length = ts1.length)
    (h2 : cs2.length = ms2.length ∧ ms2.length = ts2.length)
    (hp1 : 0 < cs1.length) (hp2 : 0 < cs2.length) :
    bulk_ids (bulk_add_items env save_ok s cs1 ms1 ts1) =
      (List.range cs1.length).map (fun i => "item_" ++ toString i) ∧
    bulk_ids (bulk_add_items env save_ok
        (bulk_add_items env save_ok s cs1 ms1 ts1).2 cs2 ms2 ts2) =
      (List.range cs2.length).map (fun i => "item_" ++ toString i) ∧
    "item_0" ∈ bulk_ids (bulk_add_items env save_ok s cs1 ms1 ts1) ∧
    "item_0" ∈ bulk_ids (bulk_add_items env save_ok
        (bulk_add_items env save_ok s cs1 ms1 ts1).2 cs2 ms2 ts2) := by
  have hgen : ∀ (t : EngineState) (cs : List String) (ms : List Metadata) (ts : List String),
      cs.length = ms.length → ms.length = ts.length →
      bulk_ids (bulk_add_items env save_ok t cs ms ts) =
        (List.range cs.length).map (fun i => "item_" ++ toString i) := by
    intro t cs ms ts hm ht
    have hes : (embeddings_loop env t.embedding_cache cs).1.length = cs.length :=
      embeddings_loop_length env t.embedding_cache cs
    have hids := bulk_vectors_ids cs 0 ms ts (embeddings_loop env t.embedding_cache cs).1
      (le_of_eq hm) (le_of_eq (hm.trans ht)) (le_of_eq hes.symm)
    simp only [bulk_add_items]
    rw [if_neg (not_not_intro ⟨hm, ht⟩)]
    simp only [bulk_ids, List.map_map]
    simpa [Function.comp] using hids
  have hmem : ∀ (n : Nat), 0 < n →
      "item_0" ∈ (List.range n).map (fun i => "item_" ++ toString i) := by
    intro n hn
    exact List.mem_map.mpr ⟨0, List.mem_range.mpr hn, by decide⟩
  refine ⟨hgen s cs1 ms1 ts1 h1.1 h1.2, hgen _ cs2 ms2 ts2 h2.1 h2.2, ?_, ?_⟩
  · rw [hgen s cs1 ms1 ts1 h1.1 h1.2]
    exact hmem _ hp1
  · rw [hgen _ cs2 ms2 ts2 h2.1 h2.2]
    exact hmem _ hp2

/-- Witness for C6: two successive one-item bulk calls both return the id
item_0. -/
theorem bulk_ids_positional_witness :
    ((["a"].length = [([] : Metadata)].length ∧ [([] : Metadata)].length = ["t"].length) ∧
      (["b"].length = [([] : Metadata)].length ∧ [([] : Metadata)].length = ["u"].length) ∧
      0 < (["a"] : List String).length ∧ 0 < (["b"] : List String).length) ∧
    (bulk_ids (bulk_add_items env0 true s0 ["a"] [[]] ["t"]) =
      (List.range (["a"] : List String).length).map (fun i => "item_" ++ toString i) ∧
    bulk_ids (bulk_add_items env0 true
        (bulk_add_items env0 true s0 ["a"] [[]] ["t"]).2 ["b"] [[]] ["u"]) =
      (List.range (["b"] : List String).length).map (fun i => "item_" ++ toString i) ∧
    "item_0" ∈ bulk_ids (bulk_add_items env0 true s0 ["a"] [[]] ["t"]) ∧
    "item_0" ∈ bulk_ids (bulk_add_items env0 true
        (bulk_add_items env0 true s0 ["a"] [[]] ["t"]).2 ["b"] [[]] ["u"])) :=
  ⟨⟨⟨rfl, rfl⟩, ⟨rfl, rfl⟩, by decide, by decide⟩,
    bulk_ids_positional env0 true s0 ["a"] [[]] ["t"] ["b"] [[]] ["u"]
      ⟨rfl, rfl⟩ ⟨rfl, rfl⟩ (by decide) (by decide)⟩

/-- The in-memory part of the engine state: every component except the durable
retrieval-cache snapshot on disk. -/
def memory_state (s : EngineState) :
    EmbeddingCache × List (String × List RetrievalRecord) × List IndexOp ×
      List (EmbeddingVector × Nat × Option FilterCriteria) × Nat :=
  (s.embedding_cache, s.retrieval_cache, s.index_log, s.query_log, s.uuid_counter)

/-- C7: a failure writing the durable retrieval-cache snapshot is swallowed —
every operation returns normally — and the primary result and the whole
in-memory state are exactly what they would be had the write succeeded; only
the on-disk snapshot can differ. -/
theorem save_failure_swallowed (env : Env) (s : EngineState)
    (content : String) (metadata : Metadata) (item_type : String)
    (contents : List String) (metadatas : List Metadata) (item_types : List String)
    (query : String) (top_k : Nat) (fc : Option FilterCriteria) (item_id : String) :
    ((add_item env false s content metadata item_type).1 =
        (add_item env true s content metadata item_type).1 ∧
      memory_state (add_item env false s content metadata item_type).2 =
        memory_state (add_item env true s content metadata item_type).2) ∧
    ((bulk_add_items env false s contents metadatas item_types).1 =
        (bulk_add_items env true s contents metadatas item_types).1 ∧
      memory_state (bulk_add_items env false s contents metadatas item_types).2 =
        memory_state (bulk_add_items env true s contents metadatas item_types).2) ∧
    ((get_retrivals env false s query top_k fc).1 =
        (get_retrivals env true s query top_k fc).1 ∧
      memory_state (get_retrivals env false s query top_k fc).2 =
        memory_state (get_retrivals env true s query top_k fc).2) ∧
    memory_state (delete_item false s item_id) =
      memory_state (delete_item true s item_id) ∧
    memory_state (clear_retrieval_cache false s) =
      memory_state (clear_retrieval_cache true s) := by
  have hmem : ∀ (b : Bool) (t : EngineState),
      memory_state (save_retrieval_cache b t) = memory_state t := by
    intro b t
    cases b <;> rfl
  refine ⟨⟨rfl, ?_⟩, ⟨?_, ?_⟩, ⟨?_, ?_⟩, ?_, ?_⟩
  · simp [add_item, hmem]
  · by_cases hl : contents.length = metadatas.length ∧ metadatas.length = item_types.length
    · simp only [bulk_add_items]
      rw [if_neg (not_not_intro hl), if_neg (not_not_intro hl)]
    · simp only [bulk_add_items]
      rw [if_pos hl, if_pos hl]
  · by_cases hl : contents.length = metadatas.length ∧ metadatas.length = item_types.length
    · simp only [bulk_add_items]
      rw [if_neg (not_not_intro hl), if_neg (not_not_intro hl)]
      simp [hmem]
    · simp only [bulk_add_items]
      rw [if_pos hl, if_pos hl]
  · rcases hq : List.lookup (generate_retrieval_key query top_k fc) s.retrieval_cache with
      _ | cached <;> simp [get_retrivals, hq, hmem]
  · rcases hq : List.lookup (generate_retrieval_key query top_k fc) s.retrieval_cache with
      _ | cached <;> simp [get_retrivals, hq, hmem]
  · simp [delete_item, hmem]
  · simp [clear_retrieval_cache, hmem]

/-- C8: the retrieval cache is loaded from the durable snapshot at engine
construction; on a present snapshot its map is adopted, and on a missing or
corrupt snapshot construction still succeeds (init_engine and
load_retrieval_cache are total) with an empty retrieval-cache map. -/
theorem construction_load_nonfatal (ec : EmbeddingCache)
    (c : List (String × List RetrievalRecord)) :
    (init_engine ec (SnapshotLoad.ok c)).retrieval_cache = c ∧
    (init_engine ec SnapshotLoad.missing).retrieval_cache = [] ∧
    (init_engine ec SnapshotLoad.corrupt).retrieval_cache = [] :=
  ⟨rfl, rfl, rfl⟩

/-- C10: add_item and bulk_add_items mutate the caller-supplied metadata dicts
in place: after the call the caller's mapping holds content and item_type
under the keys content and item_type (overwriting whatever was stored there),
and every other key keeps the value the caller stored.  The first component
of each result carries the caller-visible mappings after the call. -/
theorem metadata_mutated_in_place (env : Env) (save_ok : Bool) (s : EngineState)
    (content : String) (metadata : Metadata) (item_type : String)
    (contents : List String) (metadatas : List Metadata) (item_types : List String)
    (j : Nat) (hj : j < contents.length)
    (hm : contents.length = metadatas.length)
    (ht : metadatas.length = item_types.length) :
    (List.lookup "content" (add_item env save_ok s content metadata item_type).1.2 =
        some (PyVal.str content) ∧
      List.lookup "item_type" (add_item env save_ok s content metadata item_type).1.2 =
        some (PyVal.str item_type) ∧
      ∀ k2, k2 ≠ "content" → k2 ≠ "item_type" →
        List.lookup k2 (add_item env save_ok s content metadata item_type).1.2 =
          List.lookup k2 metadata) ∧
    (List.lookup "content"
        ((bulk_metadatas
          (bulk_add_items env save_ok s contents metadatas item_types)).getD j []) =
        some (PyVal.str (contents.getD j "")) ∧
      List.lookup "item_type"
        ((bulk_metadatas
          (bulk_add_items env save_ok s contents metadatas item_types)).getD j []) =
        some (PyVal.str (item_types.getD j "")) ∧
      ∀ k2, k2 ≠ "content" → k2 ≠ "item_type" →
        List.lookup k2
            ((bulk_metadatas
              (bulk_add_items env save_ok s contents metadatas item_types)).getD j []) =
          List.lookup k2 (metadatas.getD j [])) := by
  have hcn : ("content" : String) ≠ "item_type" := by decide
  constructor
  · refine ⟨?_, ?_, ?_⟩
    · simp [add_item, lookup_dict_insert_ne _ _ _ _ hcn, lookup_dict_insert_self]
    · simp [add_item, lookup_dict_insert_self]
    · intro k2 hk1 hk2
      simp [add_item, lookup_dict_insert_ne _ _ _ _ hk2, lookup_dict_insert_ne _ _ _ _ hk1]
  · have hes : (embeddings_loop env s.embedding_cache contents).1.length = contents.length :=
      embeddings_loop_length env s.embedding_cache contents
    have hbm : bulk_metadatas (bulk_add_items env save_ok s contents metadatas item_types) =
        (bulk_vectors 0 contents metadatas item_types
          (embeddings_loop env s.embedding_cache contents).1).map Prod.snd := by
      simp only [bulk_add_items]
      rw [if_neg (not_not_intro ⟨hm, ht⟩)]
      simp [bulk_metadatas]
    have hgd := bulk_vectors_metadata_getD contents 0 j metadatas item_types
      (embeddings_loop env s.embedding_cache contents).1 hj
      (le_of_eq hm) (le_of_eq (hm.trans ht)) (le_of_eq hes.symm)
    rw [hbm, hgd]
    refine ⟨?_, ?_, ?_⟩
    · simp [lookup_dict_insert_ne _ _ _ _ hcn, lookup_dict_insert_self]
    · simp [lookup_dict_insert_self]
    · intro k2 hk1 hk2
      simp [lookup_dict_insert_ne _ _ _ _ hk2, lookup_dict_insert_ne _ _ _ _ hk1]

/-- Witness for C10: one-item calls with a metadata dict that already held the
keys content, item_type and other. -/
theorem metadata_mutated_in_place_witness :
    ((0 : Nat) < (["a"] : List String).length ∧
      (["a"] : List String).length =
        ([[("content", PyVal.int 7), ("other", PyVal.bool true)]] : List Metadata).length ∧
      ([[("content", PyVal.int 7), ("other", PyVal.bool true)]] : List Metadata).length =
        (["t"] : List String).length) ∧
    (List.lookup "content"
        (add_item env0 true s0 "c"
          [("content", PyVal.int 7), ("other", PyVal.bool true)] "t").1.2 =
      some (PyVal.str "c") ∧
    List.lookup "other"
        (add_item env0 true s0 "c"
          [("content", PyVal.int 7), ("other", PyVal.bool true)] "t").1.2 =
      some (PyVal.bool true) ∧
    List.lookup "content"
        ((bulk_metadatas (bulk_add_items env0 true s0 ["a"]
          [[("content", PyVal.int 7), ("other", PyVal.bool true)]] ["t"])).getD 0 []) =
      some (PyVal.str ((["a"] : List String).getD 0 ""))) := by
  have h := metadata_mutated_in_place env0 true s0 "c"
    [("content", PyVal.int 7), ("other", PyVal.bool true)] "t"
    ["a"] [[("content", PyVal.int 7), ("other", PyVal.bool true)]] ["t"]
    0 (by decide) rfl rfl
  exact ⟨⟨by decide, rfl, rfl⟩, h.1.1,
    h.1.2.2 "other" (by decide) (by decide), h.2.1⟩
